import Mathlib

/-
Shallow embedding of the job-orchestration core of the
video-generation-service repository:

  app/models/video.py       : VideoStatus, VideoInfo
  app/services/storage.py   : VideoStorage (the in-memory registry)
  app/api/routes.py         : the admission check of POST /videos and the
                              background pipeline driver generate_video_task
  app/core/config.py        : MAX_CONCURRENT_VIDEOS, VIDEO_RETENTION_DAYS

The registry is a Python dict guarded by a single non-reentrant
threading.Lock.  We model the dict as an association list, timestamps as
integers counting seconds, and each with-lock block as one atomic step.
Where a method acquires the lock and then calls another method that
acquires the same (non-reentrant) lock again, a single-threaded run blocks
forever; this divergence is modelled by Option, with none for a call that
never returns.
-/

namespace VideoGen
/-- VideoStatus (app/models/video.py lines 21-26). -/
inductive VideoStatus where
  | queued
  | generating_script
  | rendering_video
  | completed
  | failed
  deriving DecidableEq

/-- VideoInfo (app/models/video.py lines 40-48): the job record stored in
the registry.  Timestamps are modelled as integer seconds. -/
structure VideoInfo where
  video_id : String
  status : VideoStatus
  message : String
  video_path : Option String := none
  created_at : Int
  script_content : Option String := none
  error_details : Option String := none
  progress : Int := 0
  deriving DecidableEq

/-- The dict VideoStorage.videos, modelled as an association list keyed by
the video id (a Python dict is insertion ordered with unique keys). -/
abbrev Registry := List (String × VideoInfo)

/-- Dict lookup: the record stored under the given id, if any. -/
def lookup : Registry → String → Option VideoInfo
  | [], _ => none
  | (k, v) :: rest, id => if k = id then some v else lookup rest id

/-- Dict assignment: replace the value stored under the key if present
(keeping its position), otherwise append a new entry at the end. -/
def insertR : Registry → String → VideoInfo → Registry
  | [], id, v => [(id, v)]
  | (k, w) :: rest, id, v =>
      if k = id then (id, v) :: rest else (k, w) :: insertR rest id v

/-- Dict deletion of a key. -/
def eraseR : Registry → String → Registry
  | [], _ => []
  | (k, v) :: rest, id =>
      if k = id then eraseR rest id else (k, v) :: eraseR rest id

/-- VideoStorage.create_video (app/services/storage.py lines 24-34): build a
fresh QUEUED record and store it with a plain dict assignment.  There is no
duplicate-id check; an existing record under the same id is replaced.  The
prompt argument is accepted but not stored anywhere.  The single with-lock
block is one atomic step. -/
def create_video (st : Registry) (video_id prompt : String) (now : Int) :
    Registry × VideoInfo :=
  let video_info : VideoInfo :=
    { video_id := video_id
      status := VideoStatus.queued
      message := "Video generation queued"
      created_at := now }
  (insertR st video_id video_info, video_info)

/-- Acquisition of the non-reentrant threading.Lock of VideoStorage
(storage.py line 16): in a single-threaded run, acquiring a lock that is
already held blocks forever; none models that divergence. -/
def lockAcquire (held : Bool) : Option Unit :=
  if held then none else some ()

/-- VideoStorage.get_video (storage.py lines 36-41) with the lock it
acquires made explicit: held is the state of the storage lock when the call
starts.  Raising VideoNotFoundError is modelled as Except.error carrying
the message the source builds. -/
def get_video_locked (held : Bool) (st : Registry) (video_id : String) :
    Option (Except String VideoInfo) := do
  let _ ← lockAcquire held
  match lookup st video_id with
  | none => pure (Except.error ("Video " ++ video_id ++ " not found"))
  | some v => pure (Except.ok v)

/-- get_video as called from outside the class, with the lock free. -/
def get_video (st : Registry) (video_id : String) :
    Option (Except String VideoInfo) :=
  get_video_locked false st video_id

/-- VideoStorage.delete_video (storage.py lines 56-72): the body enters
with self.lock held and immediately calls self.get_video, which tries to
acquire the same non-reentrant lock a second time.  The os.remove of the
video file is external I/O outside the registry state.  A result of none
models the call never returning. -/
def delete_video (st : Registry) (video_id : String) :
    Option (Registry × Bool) := do
  let _ ← lockAcquire false
  let r ← get_video_locked true st video_id
  match r with
  | Except.error _ => pure (st, false)
  | Except.ok _ => pure (eraseR st video_id, true)

/-- Modelled from the source as its evident contract: the behaviour the
return statements of delete_video encode once the accidental second
acquisition of the non-reentrant lock inside get_video is discounted (the
comment in update_video, storage.py line 46, documents exactly this
hazard): look the record up, remove it and return true, or return false
when it is absent.  cleanup_old_videos is written against this contract. -/
def delete_video_intended (st : Registry) (video_id : String) :
    Registry × Bool :=
  match lookup st video_id with
  | none => (st, false)
  | some _ => (eraseR st video_id, true)

/-- One keyword argument of VideoStorage.update_video.  VideoInfo is a
pydantic BaseModel, so a keyword name falls into one of three cases:
a value for one of the eight model fields (hasattr succeeds and setattr
stores the value); a name that is an attribute of the model without being
a field, such as dict, copy or json (hasattr succeeds, but BaseModel
setattr raises ValueError for a non-field name when extra is not allow);
or a name that is no attribute at all (hasattr fails and the pair is
skipped). -/
inductive Upd where
  | video_id (v : String)
  | status (v : VideoStatus)
  | message (v : String)
  | video_path (v : Option String)
  | created_at (v : Int)
  | script_content (v : Option String)
  | error_details (v : Option String)
  | progress (v : Int)
  | method (name : String)
  | unknown (name : String)
  deriving DecidableEq

/-- Mutation effect of one keyword that does not raise: a field keyword
stores its value, a non-attribute keyword is skipped (storage.py lines
51-53).  A method keyword is never applied: runUpds stops at it before
this function is consulted, so its identity equation here is
unreachable. -/
def applyUpd (vi : VideoInfo) : Upd → VideoInfo
  | Upd.video_id v => { vi with video_id := v }
  | Upd.status v => { vi with status := v }
  | Upd.message v => { vi with message := v }
  | Upd.video_path v => { vi with video_path := v }
  | Upd.created_at v => { vi with created_at := v }
  | Upd.script_content v => { vi with script_content := v }
  | Upd.error_details v => { vi with error_details := v }
  | Upd.progress v => { vi with progress := v }
  | Upd.method _ => vi
  | Upd.unknown _ => vi

/-- The raise-free part of the update loop, applied in keyword order. -/
def applyUpds (vi : VideoInfo) (us : List Upd) : VideoInfo :=
  us.foldl applyUpd vi

/-- True exactly for a keyword whose name is an attribute of the model
without being a field. -/
def isMethodUpd : Upd → Bool
  | Upd.method _ => true
  | _ => false

/-- The update loop of update_video (storage.py lines 51-53), run left to
right: a field keyword stores its value, a non-attribute keyword is
skipped, and a keyword that is an attribute without being a field passes
the hasattr test but makes pydantic setattr raise ValueError, stopping
the loop with the mutations already applied left in place.  The second
component is the ValueError message, if one was raised. -/
def runUpds : VideoInfo → List Upd → VideoInfo × Option String
  | vi, [] => (vi, none)
  | vi, Upd.method name :: _ =>
      (vi, some ("VideoInfo object has no field " ++ name))
  | vi, u :: rest => runUpds (applyUpd vi u) rest

/-- The two exception kinds update_video can raise: VideoNotFoundError
from its own membership check, and ValueError escaping from a pydantic
setattr on a non-field attribute name. -/
inductive PyErr where
  | videoNotFound (msg : String)
  | valueError (msg : String)
  deriving DecidableEq

/-- The str of the exception, as the task except handler records it. -/
def pyErrStr : PyErr → String
  | PyErr.videoNotFound m => m
  | PyErr.valueError m => m

/-- VideoStorage.update_video (storage.py lines 43-54): raise
VideoNotFoundError when the id is absent; otherwise run the keyword loop
over the stored record and return it, or let a ValueError from the loop
escape.  The stored record is mutated in place, so the keywords applied
before a ValueError stay in the registry.  The single with-lock block is
one atomic step.  The first component is the registry after the call, the
second the outcome. -/
def update_video (st : Registry) (video_id : String) (us : List Upd) :
    Registry × Except PyErr VideoInfo :=
  match lookup st video_id with
  | none =>
      (st, Except.error (PyErr.videoNotFound
        ("Video " ++ video_id ++ " not found")))
  | some vi =>
      match runUpds vi us with
      | (vi', none) => (insertR st video_id vi', Except.ok vi')
      | (vi', some e) =>
          (insertR st video_id vi', Except.error (PyErr.valueError e))

/-- The set active_statuses of VideoStorage.get_active_video_count
(storage.py line 100). -/
def ACTIVE_STATUSES : List VideoStatus :=
  [VideoStatus.queued, VideoStatus.generating_script,
   VideoStatus.rendering_video]

/-- VideoStorage.get_active_video_count (storage.py lines 97-101): the
number of stored records whose status lies in active_statuses. -/
def get_active_video_count (st : Registry) : Nat :=
  (st.filter (fun p => decide (p.2.status ∈ ACTIVE_STATUSES))).length

/-- Settings.VIDEO_RETENTION_DAYS (app/core/config.py line 55). -/
def VIDEO_RETENTION_DAYS : Int := 7

/-- Seconds per day, for the timedelta arithmetic of storage.py line 84. -/
def SECONDS_PER_DAY : Int := 86400

/-- The cutoff computed at storage.py line 84: utcnow minus a timedelta of
the retention days, with time in integer seconds. -/
def cleanup_cutoff (now : Int) : Int :=
  now - VIDEO_RETENTION_DAYS * SECONDS_PER_DAY

/-- The list videos_to_delete built under the lock at storage.py lines
87-91: every id whose record is strictly older than the cutoff.  The
status of the record is not consulted. -/
def videos_to_delete (st : Registry) (now : Int) : List String :=
  (st.filter (fun p => decide (p.2.created_at < cleanup_cutoff now))).map
    (fun p => p.1)

/-- VideoStorage.cleanup_old_videos (storage.py lines 82-95): build the
selection under the lock, then call self.delete_video on each selected id
with the lock released.  Each delete_video call deadlocks, so the sweep
only completes when the selection is empty. -/
def cleanup_old_videos (st : Registry) (now : Int) : Option Registry :=
  (videos_to_delete st now).foldl
    (fun acc id => do
      let s ← acc
      let p ← delete_video s id
      pure p.1)
    (some st)

/-- The same sweep run against delete_video_intended: what
cleanup_old_videos does once delete_video honours its own return
contract. -/
def cleanup_old_videos_intended (st : Registry) (now : Int) : Registry :=
  (videos_to_delete st now).foldl
    (fun s id => (delete_video_intended s id).1) st

/-- Settings.MAX_CONCURRENT_VIDEOS (app/core/config.py line 54). -/
def MAX_CONCURRENT_VIDEOS : Nat := 2

/-- The admission path of POST /videos (app/api/routes.py lines 101-141):
reject with HTTP 429 when the active count is at or over the ceiling,
otherwise create a QUEUED record under a freshly generated uuid (the uuid
is a parameter here) and schedule the background task.  Except.error
models the 429 rejection; the registry is returned in both branches. -/
def create_video_route (st : Registry) (new_id prompt : String)
    (now : Int) : Registry × Except Unit VideoInfo :=
  if MAX_CONCURRENT_VIDEOS ≤ get_active_video_count st then
    (st, Except.error ())
  else
    let r := create_video st new_id prompt now
    (r.1, Except.ok r.2)

/-- The keyword list of the stage-1-start update (routes.py lines 49-54). -/
def u_stage1 : List Upd :=
  [Upd.status VideoStatus.generating_script,
   Upd.message "Generating Manim script...", Upd.progress 25]

/-- The keyword list of the script-persist update (routes.py line 62). -/
def u_script (script : String) : List Upd :=
  [Upd.script_content (some script), Upd.progress 40]

/-- The keyword list of the stage-2-start update (routes.py lines 66-71). -/
def u_stage2 : List Upd :=
  [Upd.status VideoStatus.rendering_video,
   Upd.message "Rendering video...", Upd.progress 50]

/-- The keyword list of the completion update (routes.py lines 80-86). -/
def u_done (path : String) : List Upd :=
  [Upd.status VideoStatus.completed,
   Upd.message "Video generated successfully",
   Upd.video_path (some path), Upd.progress 100]

/-- The keyword list of the failure update (routes.py lines 93-98):
status, message and error_details only; progress and video_path are not
touched. -/
def u_fail (emsg : String) : List Upd :=
  [Upd.status VideoStatus.failed,
   Upd.message "Video generation failed",
   Upd.error_details (some emsg)]

/-- The except handler of generate_video_task (routes.py lines 90-98): one
update recording the failure, with error_details set to str of the caught
exception.  Returns none when this update itself raises (record absent),
matching the second exception escaping the handler with no further
registry write. -/
def task_fail_update (st : Registry) (video_id emsg : String) :
    Option Registry :=
  match update_video st video_id (u_fail emsg) with
  | (_, Except.error _) => none
  | (st', Except.ok _) => some st'

/-- generate_video_task (routes.py lines 33-98) with the two awaited
collaborators passed in as their outcomes: sres is what
script_generator.generate_script does (ok with the script text, or error
with str of the raised exception) and rres likewise for
video_processor.process_video.  Returns the list of registry states after
each write the task commits, in commit order, together with the final
state (none when an unhandled exception escapes the task, which happens
only if even the failure update raises).  The keyword lists the driver
passes contain only field keywords, so an update can raise only
VideoNotFoundError, which leaves the registry unchanged; the registry
returned by the raising call is used in the except branches either way. -/
def generate_video_task_run (st : Registry) (video_id : String)
    (sres rres : Except String String) : List Registry × Option Registry :=
  match update_video st video_id u_stage1 with
  | (stE, Except.error e) =>
      match task_fail_update stE video_id (pyErrStr e) with
      | none => ([], none)
      | some stF => ([stF], some stF)
  | (st1, Except.ok _) =>
      match sres with
      | Except.error e =>
          match task_fail_update st1 video_id e with
          | none => ([st1], none)
          | some stF => ([st1, stF], some stF)
      | Except.ok script =>
          match update_video st1 video_id (u_script script) with
          | (stE, Except.error e) =>
              match task_fail_update stE video_id (pyErrStr e) with
              | none => ([st1], none)
              | some stF => ([st1, stF], some stF)
          | (st2, Except.ok _) =>
              match update_video st2 video_id u_stage2 with
              | (stE, Except.error e) =>
                  match task_fail_update stE video_id (pyErrStr e) with
                  | none => ([st1, st2], none)
                  | some stF => ([st1, st2, stF], some stF)
              | (st3, Except.ok _) =>
                  match rres with
                  | Except.error e =>
                      match task_fail_update st3 video_id e with
                      | none => ([st1, st2, st3], none)
                      | some stF => ([st1, st2, st3, stF], some stF)
                  | Except.ok path =>
                      match update_video st3 video_id (u_done path) with
                      | (stE, Except.error e) =>
                          match task_fail_update stE video_id
                              (pyErrStr e) with
                          | none => ([st1, st2, st3], none)
                          | some stF => ([st1, st2, st3, stF], some stF)
                      | (st4, Except.ok _) =>
                          ([st1, st2, st3, st4], some st4)

/-- The final registry state the background task leaves behind. -/
def generate_video_task (st : Registry) (video_id : String)
    (sres rres : Except String String) : Option Registry :=
  (generate_video_task_run st video_id sres rres).2

/-- The successive values of one job record over every registry write the
system itself performs on it: the admission-time creation followed by each
write of the pipeline driver (lookup returns none if a state were missing
the record). -/
def job_record_trace (st0 : Registry) (video_id prompt : String)
    (now : Int) (sres rres : Except String String) :
    List (Option VideoInfo) :=
  let c := create_video st0 video_id prompt now
  some c.2 ::
    ((generate_video_task_run c.1 video_id sres rres).1.map
      (fun s => lookup s video_id))

/-- Terminal states as defined by the state machine: COMPLETED or
FAILED. -/
def isTerminal (s : VideoStatus) : Bool :=
  match s with
  | VideoStatus.completed => true
  | VideoStatus.failed => true
  | _ => false

/-- Checks the tail of a record trace given the previous progress value
and whether a terminal status has already been seen: every value lies in
the interval from 0 to 100, progress never decreases, and it no longer
changes once a terminal status has appeared. -/
def progress_ok_from (prev : Int) (frozen : Bool) :
    List VideoInfo → Bool
  | [] => true
  | r :: rs =>
      decide (0 ≤ r.progress) && decide (r.progress ≤ 100) &&
      (if frozen then decide (r.progress = prev)
       else decide (prev ≤ r.progress)) &&
      progress_ok_from r.progress (frozen || isTerminal r.status) rs

/-- The progress discipline of a whole record trace. -/
def progress_ok : List VideoInfo → Bool
  | [] => true
  | r :: rs =>
      decide (0 ≤ r.progress) && decide (r.progress ≤ 100) &&
      progress_ok_from r.progress (isTerminal r.status) rs

/-- Collapses a trace of optional records: the discipline fails outright
if any observed state is missing the record. -/
def seq_opts : List (Option VideoInfo) → Option (List VideoInfo)
  | [] => some []
  | none :: _ => none
  | some r :: rest => (seq_opts rest).map (fun l => r :: l)

/-- The progress discipline over a trace of optional records. -/
def progress_ok_opt (l : List (Option VideoInfo)) : Bool :=
  match seq_opts l with
  | none => false
  | some tr => progress_ok tr

/-- The record after the stage-1-start write, for an initial record rec. -/
def task_rec1 (rec : VideoInfo) : VideoInfo := applyUpds rec u_stage1

/-- The record after the script-persist write. -/
def task_rec2 (rec : VideoInfo) (script : String) : VideoInfo :=
  applyUpds (task_rec1 rec) (u_script script)

/-- The record after the stage-2-start write. -/
def task_rec3 (rec : VideoInfo) (script : String) : VideoInfo :=
  applyUpds (task_rec2 rec script) u_stage2

/-- The record after the completion write. -/
def task_rec4 (rec : VideoInfo) (script path : String) : VideoInfo :=
  applyUpds (task_rec3 rec script) (u_done path)

/-- The record after the failure write, when stage 1 raised. -/
def task_recF1 (rec : VideoInfo) (emsg : String) : VideoInfo :=
  applyUpds (task_rec1 rec) (u_fail emsg)

/-- The record after the failure write, when stage 2 raised. -/
def task_recF2 (rec : VideoInfo) (script emsg : String) : VideoInfo :=
  applyUpds (task_rec3 rec script) (u_fail emsg)

/-- The registry after the stage-1-start write. -/
def task_st1 (st : Registry) (id : String) (rec : VideoInfo) : Registry :=
  insertR st id (task_rec1 rec)

/-- The registry after the script-persist write. -/
def task_st2 (st : Registry) (id : String) (rec : VideoInfo)
    (script : String) : Registry :=
  insertR (task_st1 st id rec) id (task_rec2 rec script)

/-- The registry after the stage-2-start write. -/
def task_st3 (st : Registry) (id : String) (rec : VideoInfo)
    (script : String) : Registry :=
  insertR (task_st2 st id rec script) id (task_rec3 rec script)

/-- The registry after the completion write. -/
def task_st4 (st : Registry) (id : String) (rec : VideoInfo)
    (script path : String) : Registry :=
  insertR (task_st3 st id rec script) id (task_rec4 rec script path)

/-- The registry after the failure write, when stage 1 raised. -/
def task_stF1 (st : Registry) (id : String) (rec : VideoInfo)
    (emsg : String) : Registry :=
  insertR (task_st1 st id rec) id (task_recF1 rec emsg)

/-- The registry after the failure write, when stage 2 raised. -/
def task_stF2 (st : Registry) (id : String) (rec : VideoInfo)
    (script emsg : String) : Registry :=
  insertR (task_st3 st id rec script) id (task_recF2 rec script emsg)

/-- Non-terminal statuses exactly as the claim words them: in the set
QUEUED, GENERATING_SCRIPT, RENDERING_VIDEO and not in the set COMPLETED,
FAILED.  Written from the spec side, to be compared with
get_active_video_count. -/
def non_terminal_spec (s : VideoStatus) : Bool :=
  decide ((s = VideoStatus.queued ∨ s = VideoStatus.generating_script ∨
    s = VideoStatus.rendering_video) ∧
    ¬(s = VideoStatus.completed ∨ s = VideoStatus.failed))

/-- A COMPLETED record used as concrete input. -/
def recDoneA : VideoInfo :=
  { video_id := "a", status := VideoStatus.completed, message := "done",
    created_at := 0, progress := 100 }

/-- An in-flight RENDERING_VIDEO record used as concrete input. -/
def recInflightB : VideoInfo :=
  { video_id := "b", status := VideoStatus.rendering_video,
    message := "Rendering video...", created_at := 0, progress := 50 }

/-- A QUEUED record used as concrete input. -/
def recQ1 : VideoInfo :=
  { video_id := "q1", status := VideoStatus.queued,
    message := "Video generation queued", created_at := 0 }

/-- A second non-terminal record used as concrete input. -/
def recQ2 : VideoInfo :=
  { video_id := "q2", status := VideoStatus.rendering_video,
    message := "Rendering video...", created_at := 0, progress := 50 }

/-- A QUEUED record created at time 0, hence 604801 seconds old at time
604801, one second past the seven-day retention window. -/
def recOldQueued : VideoInfo :=
  { video_id := "oldq", status := VideoStatus.queued,
    message := "Video generation queued", created_at := 0 }

/-- A fresh QUEUED record under id w, as create_video builds it, used as
concrete input for the pipeline theorems. -/
def recFreshW : VideoInfo :=
  { video_id := "w", status := VideoStatus.queued,
    message := "Video generation queued", created_at := 0 }

/-- The eight fields of VideoInfo, for stating which fields an update
touches. -/
inductive FName where
  | video_id
  | status
  | message
  | video_path
  | created_at
  | script_content
  | error_details
  | progress
  deriving DecidableEq

/-- The field a keyword names, or none for a keyword that names no field
of the record. -/
def upd_target : Upd → Option FName
  | Upd.video_id _ => some FName.video_id
  | Upd.status _ => some FName.status
  | Upd.message _ => some FName.message
  | Upd.video_path _ => some FName.video_path
  | Upd.created_at _ => some FName.created_at
  | Upd.script_content _ => some FName.script_content
  | Upd.error_details _ => some FName.error_details
  | Upd.progress _ => some FName.progress
  | Upd.method _ => none
  | Upd.unknown _ => none

/-- The value a record holds at a field, injected into one common type so
that equality at a field is plain equality. -/
def field_get (f : FName) (a : VideoInfo) :
    Sum String (Sum VideoStatus (Sum (Option String) Int)) :=
  match f with
  | FName.video_id => Sum.inl a.video_id
  | FName.message => Sum.inl a.message
  | FName.status => Sum.inr (Sum.inl a.status)
  | FName.video_path => Sum.inr (Sum.inr (Sum.inl a.video_path))
  | FName.script_content => Sum.inr (Sum.inr (Sum.inl a.script_content))
  | FName.error_details => Sum.inr (Sum.inr (Sum.inl a.error_details))
  | FName.created_at => Sum.inr (Sum.inr (Sum.inr a.created_at))
  | FName.progress => Sum.inr (Sum.inr (Sum.inr a.progress))

theorem lookup_insertR_self (st : Registry) (id : String) (v : VideoInfo) :
    lookup (insertR st id v) id = some v := by
  induction st with
  | nil => simp [insertR, lookup]
  | cons hd tl ih =>
    obtain ⟨k, w⟩ := hd
    by_cases hk : k = id <;> simp [insertR, lookup, hk, ih]

theorem lookup_insertR_ne (st : Registry) (id j : String) (v : VideoInfo)
    (h : j ≠ id) : lookup (insertR st id v) j = lookup st j := by
  induction st with
  | nil => simp [insertR, lookup, Ne.symm h]
  | cons hd tl ih =>
    obtain ⟨k, w⟩ := hd
    by_cases hk : k = id
    · subst hk
      simp [insertR, lookup, Ne.symm h]
    · by_cases hj : k = j <;> simp [insertR, lookup, hk, hj, h, Ne.symm h, ih]

theorem lookup_eraseR_self (st : Registry) (id : String) :
    lookup (eraseR st id) id = none := by
  induction st with
  | nil => rfl
  | cons hd tl ih =>
    obtain ⟨k, w⟩ := hd
    by_cases hk : k = id
    · simp [eraseR, hk, ih]
    · simp [eraseR, lookup, hk, ih]

theorem lookup_eraseR_ne (st : Registry) (id j : String) (h : j ≠ id) :
    lookup (eraseR st id) j = lookup st j := by
  induction st with
  | nil => rfl
  | cons hd tl ih =>
    obtain ⟨k, w⟩ := hd
    by_cases hk : k = id
    · subst hk
      simp [eraseR, lookup, Ne.symm h, ih]
    · by_cases hj : k = j <;> simp [eraseR, lookup, hk, hj, h, Ne.symm h, ih]

theorem runUpds_cons (vi : VideoInfo) (u : Upd) (rest : List Upd)
    (h : isMethodUpd u = false) :
    runUpds vi (u :: rest) = runUpds (applyUpd vi u) rest := by
  cases u <;> simp_all [runUpds, isMethodUpd, applyUpd]

theorem runUpds_no_method (us : List Upd)
    (h : ∀ u ∈ us, isMethodUpd u = false) :
    ∀ vi : VideoInfo, runUpds vi us = (applyUpds vi us, none) := by
  induction us with
  | nil => intro vi; rfl
  | cons hd tl ih =>
    intro vi
    rw [runUpds_cons vi hd tl (h hd (List.mem_cons_self _ _))]
    exact ih (fun u hu => h u (List.mem_cons_of_mem _ hu)) (applyUpd vi hd)

theorem runUpds_first_method (pre : List Upd) (name : String)
    (post : List Upd) (h : ∀ u ∈ pre, isMethodUpd u = false) :
    ∀ vi : VideoInfo, runUpds vi (pre ++ Upd.method name :: post) =
      (applyUpds vi pre, some ("VideoInfo object has no field " ++ name)) := by
  induction pre with
  | nil => intro vi; rfl
  | cons hd tl ih =>
    intro vi
    rw [List.cons_append,
      runUpds_cons vi hd _ (h hd (List.mem_cons_self _ _))]
    exact ih (fun u hu => h u (List.mem_cons_of_mem _ hu)) (applyUpd vi hd)

theorem u_stage1_no_method : ∀ u ∈ u_stage1, isMethodUpd u = false := by
  decide

theorem u_script_no_method (script : String) :
    ∀ u ∈ u_script script, isMethodUpd u = false := by
  intro u hu
  simp only [u_script, List.mem_cons, List.not_mem_nil, or_false] at hu
  rcases hu with rfl | rfl <;> rfl

theorem u_stage2_no_method : ∀ u ∈ u_stage2, isMethodUpd u = false := by
  decide

theorem u_done_no_method (path : String) :
    ∀ u ∈ u_done path, isMethodUpd u = false := by
  intro u hu
  simp only [u_done, List.mem_cons, List.not_mem_nil, or_false] at hu
  rcases hu with rfl | rfl | rfl | rfl <;> rfl

theorem u_fail_no_method (emsg : String) :
    ∀ u ∈ u_fail emsg, isMethodUpd u = false := by
  intro u hu
  simp only [u_fail, List.mem_cons, List.not_mem_nil, or_false] at hu
  rcases hu with rfl | rfl | rfl <;> rfl

theorem update_video_present (st : Registry) (id : String)
    (rec : VideoInfo) (us : List Upd) (h : lookup st id = some rec)
    (hm : ∀ u ∈ us, isMethodUpd u = false) :
    update_video st id us =
      (insertR st id (applyUpds rec us), Except.ok (applyUpds rec us)) := by
  simp [update_video, h, runUpds_no_method us hm rec]

theorem run_success (st : Registry) (id script path : String)
    (rec : VideoInfo) (h : lookup st id = some rec) :
    generate_video_task_run st id (Except.ok script) (Except.ok path) =
      ([task_st1 st id rec, task_st2 st id rec script,
        task_st3 st id rec script, task_st4 st id rec script path],
       some (task_st4 st id rec script path)) := by
  have h1 := update_video_present st id rec u_stage1 h u_stage1_no_method
  have h2 := update_video_present (task_st1 st id rec)
    id (task_rec1 rec) (u_script script) (lookup_insertR_self ..)
    (u_script_no_method script)
  have h3 := update_video_present (task_st2 st id rec script) id
    (task_rec2 rec script) u_stage2 (lookup_insertR_self ..)
    u_stage2_no_method
  have h4 := update_video_present (task_st3 st id rec script) id
    (task_rec3 rec script) (u_done path) (lookup_insertR_self ..)
    (u_done_no_method path)
  simp only [task_st1, task_st2, task_st3, task_rec1, task_rec2,
    task_rec3] at h2 h3 h4
  simp [generate_video_task_run, h1, h2, h3, h4, task_rec1, task_rec2,
    task_rec3, task_rec4, task_st1, task_st2, task_st3, task_st4]

theorem run_fail1 (st : Registry) (id emsg : String) (rec : VideoInfo)
    (rres : Except String String) (h : lookup st id = some rec) :
    generate_video_task_run st id (Except.error emsg) rres =
      ([task_st1 st id rec, task_stF1 st id rec emsg],
       some (task_stF1 st id rec emsg)) := by
  have h1 := update_video_present st id rec u_stage1 h u_stage1_no_method
  have hf := update_video_present (task_st1 st id rec)
    id (task_rec1 rec) (u_fail emsg) (lookup_insertR_self ..)
    (u_fail_no_method emsg)
  simp only [task_st1, task_rec1] at hf
  simp [generate_video_task_run, task_fail_update, h1, hf, task_rec1,
    task_recF1, task_st1, task_stF1]

theorem run_fail2 (st : Registry) (id script emsg : String)
    (rec : VideoInfo) (h : lookup st id = some rec) :
    generate_video_task_run st id (Except.ok script) (Except.error emsg) =
      ([task_st1 st id rec, task_st2 st id rec script,
        task_st3 st id rec script, task_stF2 st id rec script emsg],
       some (task_stF2 st id rec script emsg)) := by
  have h1 := update_video_present st id rec u_stage1 h u_stage1_no_method
  have h2 := update_video_present (task_st1 st id rec)
    id (task_rec1 rec) (u_script script) (lookup_insertR_self ..)
    (u_script_no_method script)
  have h3 := update_video_present (task_st2 st id rec script) id
    (task_rec2 rec script) u_stage2 (lookup_insertR_self ..)
    u_stage2_no_method
  have hf := update_video_present (task_st3 st id rec script) id
    (task_rec3 rec script) (u_fail emsg) (lookup_insertR_self ..)
    (u_fail_no_method emsg)
  simp only [task_st1, task_st2, task_st3, task_rec1, task_rec2,
    task_rec3] at h2 h3 hf
  simp [generate_video_task_run, task_fail_update, h1, h2, h3, hf,
    task_rec1, task_rec2, task_rec3, task_recF2, task_st1, task_st2,
    task_st3, task_stF2]

theorem status_in_active_iff (s : VideoStatus) :
    decide (s ∈ ACTIVE_STATUSES) = non_terminal_spec s := by
  cases s <;> rfl

/-- C6: after every sequence of create, update and delete operations (the
statement quantifies over every registry state, reachable or not),
countActive, that is get_active_video_count, equals the number of stored
records whose status is non-terminal: in the set QUEUED,
GENERATING_SCRIPT, RENDERING_VIDEO and not in the set COMPLETED,
FAILED. -/
theorem active_count_matches_non_terminal (st : Registry) :
    get_active_video_count st =
      (st.filter (fun p => non_terminal_spec p.2.status)).length := by
  unfold get_active_video_count
  have he : (fun p : String × VideoInfo =>
      decide (p.2.status ∈ ACTIVE_STATUSES)) =
      (fun p : String × VideoInfo => non_terminal_spec p.2.status) := by
    funext p
    exact status_in_active_iff p.2.status
  rw [he]

/-- C2 counterexample: with a COMPLETED record already stored under id a,
create_video for the same id neither fails with a DuplicateID error nor
leaves the existing record unchanged: it replaces the stored record with a
fresh QUEUED one (progress drops from 100 to 0). -/
theorem create_overwrites_existing_record :
    lookup (create_video [("a", recDoneA)] "a" "p" 9).1 "a" =
      some (create_video [("a", recDoneA)] "a" "p" 9).2 ∧
    (create_video [("a", recDoneA)] "a" "p" 9).2.progress = 0 ∧
    recDoneA.progress = 100 ∧
    lookup (create_video [("a", recDoneA)] "a" "p" 9).1 "a" ≠
      some recDoneA := by
  refine ⟨rfl, rfl, rfl, ?_⟩
  decide

/-- C2 amended: create never fails.  For every registry state it builds a
fresh record (status QUEUED, the fixed queued message, progress 0, no
artifact, no script, no error detail, created_at set to now), stores it
under the id, replacing whatever record was there, returns it, and leaves
every other record unchanged; when the id is absent this is exactly an
insert of the returned snapshot. -/
theorem create_always_inserts_queued (st : Registry) (id p : String)
    (now : Int) :
    ∃ st' vi, create_video st id p now = (st', vi) ∧
      lookup st' id = some vi ∧
      vi.video_id = id ∧ vi.status = VideoStatus.queued ∧
      vi.message = "Video generation queued" ∧ vi.created_at = now ∧
      vi.progress = 0 ∧ vi.video_path = none ∧ vi.script_content = none ∧
      vi.error_details = none ∧
      (∀ j, j ≠ id → lookup st' j = lookup st j) := by
  refine ⟨_, _, rfl, lookup_insertR_self .., rfl, rfl, rfl, rfl, rfl,
    rfl, rfl, rfl, ?_⟩
  intro j hj
  exact lookup_insertR_ne _ _ _ _ hj

/-- Witness for create_always_inserts_queued at a concrete input,
discharging the inner frame hypothesis at the id b distinct from a. -/
theorem create_always_inserts_queued_witness :
    ∃ st' vi, create_video [("b", recDoneA)] "a" "p" 3 = (st', vi) ∧
      lookup st' "b" = lookup [("b", recDoneA)] "b" := by
  obtain ⟨st', vi, he, -, -, -, -, -, -, -, -, -, hframe⟩ :=
    create_always_inserts_queued [("b", recDoneA)] "a" "p" 3
  exact ⟨st', vi, he, hframe "b" (by decide)⟩

/-- C3: with the ceiling MAX_CONCURRENT_VIDEOS equal to 2, a submission
made while the active count is exactly 2 is rejected with the 429
admission error and the registry is unchanged, and a submission made
while the active count is below 2 under a fresh id is admitted: a new
QUEUED record with progress 0 is created under that id and every other
record is untouched. -/
theorem admission_ceiling_two (st : Registry) (id p : String) (now : Int) :
    (get_active_video_count st = 2 →
      create_video_route st id p now = (st, Except.error ())) ∧
    (get_active_video_count st < 2 → lookup st id = none →
      ∃ st' vi, create_video_route st id p now = (st', Except.ok vi) ∧
        vi.status = VideoStatus.queued ∧ vi.progress = 0 ∧
        lookup st id = none ∧ lookup st' id = some vi ∧
        (∀ j, j ≠ id → lookup st' j = lookup st j)) := by
  constructor
  · intro h
    simp [create_video_route, MAX_CONCURRENT_VIDEOS, h]
  · intro h hid
    have hlt : ¬ MAX_CONCURRENT_VIDEOS ≤ get_active_video_count st := by
      simp only [MAX_CONCURRENT_VIDEOS]
      omega
    refine ⟨(create_video st id p now).1, (create_video st id p now).2,
      by simp [create_video_route, hlt], rfl, rfl, hid,
      lookup_insertR_self .., ?_⟩
    intro j hj
    exact lookup_insertR_ne _ _ _ _ hj

/-- Witness for admission_ceiling_two: with two non-terminal records the
third submission is rejected and the registry is unchanged; with one
non-terminal and one COMPLETED record it is admitted as QUEUED. -/
theorem admission_ceiling_two_witness :
    create_video_route [("q1", recQ1), ("q2", recQ2)] "q3" "p" 5 =
      ([("q1", recQ1), ("q2", recQ2)], Except.error ()) ∧
    ∃ st' vi,
      create_video_route [("q1", recQ1), ("a", recDoneA)] "q3" "p" 5 =
        (st', Except.ok vi) ∧ vi.status = VideoStatus.queued := by
  constructor
  · exact (admission_ceiling_two [("q1", recQ1), ("q2", recQ2)]
      "q3" "p" 5).1 (by decide)
  · obtain ⟨st', vi, he, hq, -, -, -, -⟩ :=
      (admission_ceiling_two [("q1", recQ1), ("a", recDoneA)]
        "q3" "p" 5).2 (by decide) (by decide)
    exact ⟨st', vi, he, hq⟩

/-- C7 (code bug evidence): delete_video never returns at all.  Its body
holds the non-reentrant storage lock and calls get_video, which blocks
forever acquiring the same lock, both when the id is present and when it
is absent; the contract its own return statements encode (true after
removal, false when absent), shown by delete_video_intended, matches the
claim. -/
theorem delete_video_never_returns :
    delete_video [("a", recDoneA)] "a" = none ∧
    delete_video ([] : Registry) "a" = none ∧
    delete_video_intended [("a", recDoneA)] "a" = ([], true) ∧
    delete_video_intended ([] : Registry) "a" = ([], false) := by
  refine ⟨rfl, rfl, ?_, rfl⟩
  decide

/-- C10 (code bug evidence): deleting an in-flight RENDERING_VIDEO record
also never returns, for the same lock-reentrancy reason; the body itself
contains no status restriction, as delete_video_intended on the same
input shows (it removes the in-flight record and returns true). -/
theorem delete_inflight_never_returns :
    delete_video [("b", recInflightB)] "b" = none ∧
    delete_video_intended [("b", recInflightB)] "b" = ([], true) := by
  refine ⟨rfl, ?_⟩
  decide

theorem delete_video_eq_none (s : Registry) (j : String) :
    delete_video s j = none := rfl

theorem lookup_delete_intended_none (s : Registry) (id j : String)
    (h : lookup s id = none) :
    lookup (delete_video_intended s j).1 id = none := by
  unfold delete_video_intended
  cases hj : lookup s j
  · simpa using h
  · by_cases hij : id = j
    · subst hij
      simp [lookup_eraseR_self]
    · simpa [lookup_eraseR_ne s j id hij] using h

theorem foldl_delete_intended_none (ids : List String) (s : Registry)
    (id : String) (h : lookup s id = none) :
    lookup (ids.foldl (fun t j => (delete_video_intended t j).1) s) id =
      none := by
  induction ids generalizing s with
  | nil => exact h
  | cons j t ih => exact ih _ (lookup_delete_intended_none s id j h)

theorem foldl_delete_intended_mem (ids : List String) (s : Registry)
    (id : String) (h : id ∈ ids) :
    lookup (ids.foldl (fun t j => (delete_video_intended t j).1) s) id =
      none := by
  induction ids generalizing s with
  | nil => cases h
  | cons j t ih =>
    rcases List.mem_cons.mp h with hj | ht
    · subst hj
      refine foldl_delete_intended_none t _ id ?_
      cases hl : lookup s id
      · simp [delete_video_intended, hl]
      · simp [delete_video_intended, hl, lookup_eraseR_self]
    · exact ih _ ht

theorem cleanup_foldl_none (ids : List String) :
    ids.foldl
      (fun acc id => do
        let s ← acc
        let p ← delete_video s id
        pure p.1)
      (none : Option Registry) = none := by
  induction ids with
  | nil => rfl
  | cons j t ih => simpa using ih

/-- C1 counterexample: a QUEUED, hence non-terminal, record created at
time 0 is swept at time 604801 (one second past the seven-day window):
it is selected by the sweep and the per-record delete removes it under
the contract delete_video itself encodes.  The last conjunct records
that the sweep as literally written instead deadlocks inside its first
delete_video call, so it never completes; either way the claim that a
sweep only ever targets terminal records fails on the code, whose
selection never consults the status. -/
theorem cleanup_deletes_old_queued_record :
    recOldQueued.status = VideoStatus.queued ∧
    videos_to_delete [("oldq", recOldQueued)] 604801 = ["oldq"] ∧
    lookup (cleanup_old_videos_intended [("oldq", recOldQueued)] 604801)
      "oldq" = none ∧
    cleanup_old_videos [("oldq", recOldQueued)] 604801 = none := by
  refine ⟨rfl, by decide, by decide, by decide⟩

/-- C1 amended: the sweep selects records by age alone.  An id is in
videos_to_delete exactly when its record is strictly older than the
cutoff now minus the seven-day retention window, regardless of status;
every selected record, non-terminal ones included, is removed by the
sweep under the contract delete_video itself encodes; and the sweep as
literally written completes (unchanged) only when the selection is
empty, deadlocking in delete_video otherwise. -/
theorem cleanup_targets_by_age_only (st : Registry) (now : Int)
    (id : String) :
    (id ∈ videos_to_delete st now ↔
      ∃ r : VideoInfo, (id, r) ∈ st ∧
        r.created_at < cleanup_cutoff now) ∧
    (∀ r : VideoInfo, (id, r) ∈ st → r.created_at < cleanup_cutoff now →
      lookup (cleanup_old_videos_intended st now) id = none) ∧
    (videos_to_delete st now = [] →
      cleanup_old_videos st now = some st) ∧
    (videos_to_delete st now ≠ [] →
      cleanup_old_videos st now = none) := by
  have hmem : id ∈ videos_to_delete st now ↔
      ∃ r : VideoInfo, (id, r) ∈ st ∧
        r.created_at < cleanup_cutoff now := by
    unfold videos_to_delete
    constructor
    · intro h
      obtain ⟨p, hp, hfst⟩ := List.mem_map.mp h
      obtain ⟨hin, hdec⟩ := List.mem_filter.mp hp
      obtain ⟨k, r⟩ := p
      have hk : k = id := hfst
      subst hk
      exact ⟨r, hin, by simpa using hdec⟩
    · rintro ⟨r, hmem, hlt⟩
      exact List.mem_map.mpr ⟨(id, r),
        List.mem_filter.mpr ⟨hmem, by simpa using hlt⟩, rfl⟩
  refine ⟨hmem, ?_, ?_, ?_⟩
  · intro r hr hlt
    exact foldl_delete_intended_mem _ _ _ (hmem.mpr ⟨r, hr, hlt⟩)
  · intro h
    simp [cleanup_old_videos, h]
  · intro h
    unfold cleanup_old_videos
    cases hv : videos_to_delete st now with
    | nil => exact absurd hv h
    | cons j t =>
      have : (do
          let s ← (some st : Option Registry)
          let p ← delete_video s j
          pure p.1) = (none : Option Registry) := by
        simp [delete_video_eq_none]
      simpa [List.foldl_cons, this] using cleanup_foldl_none t

/-- Witness for cleanup_targets_by_age_only at a concrete input: the old
QUEUED record is in the selection, the intended sweep removes it, and the
literal sweep returns none. -/
theorem cleanup_targets_by_age_only_witness :
    "oldq" ∈ videos_to_delete [("oldq", recOldQueued)] 604801 ∧
    lookup (cleanup_old_videos_intended [("oldq", recOldQueued)] 604801)
      "oldq" = none ∧
    cleanup_old_videos [("oldq", recOldQueued)] 604801 = none := by
  obtain ⟨hmem, hdel, -, hlit⟩ :=
    cleanup_targets_by_age_only [("oldq", recOldQueued)] 604801 "oldq"
  refine ⟨hmem.mpr ⟨recOldQueued, by decide, by decide⟩,
    hdel recOldQueued (by decide) (by decide), hlit (by decide)⟩

/-- C4: when stage 1 (script synthesis) raises, the whole run of the
driver is independent of the rendering outcome (stage 2 is never
consulted), and the driver commits exactly two writes: the stage-1-start
write and the failure write.  The final record has status FAILED, its
error_details is the raised message and is not empty, its progress equals
the progress of the last write before the failure (25), and its
video_path is whatever it was initially, never a fresh artifact. -/
theorem stage1_failure_final_state (st : Registry) (id emsg : String)
    (rec : VideoInfo) (hpres : lookup st id = some rec)
    (hmsg : emsg ≠ "") (rres rres' : Except String String) :
    generate_video_task_run st id (Except.error emsg) rres =
      generate_video_task_run st id (Except.error emsg) rres' ∧
    ∃ st1 stF recF r1,
      generate_video_task_run st id (Except.error emsg) rres =
        ([st1, stF], some stF) ∧
      lookup stF id = some recF ∧
      recF.status = VideoStatus.failed ∧
      recF.error_details = some emsg ∧
      recF.error_details ≠ some "" ∧
      lookup st1 id = some r1 ∧ r1.progress = 25 ∧
      recF.progress = r1.progress ∧
      recF.video_path = rec.video_path := by
  have hr := run_fail1 st id emsg rec rres hpres
  have hr' := run_fail1 st id emsg rec rres' hpres
  constructor
  · rw [hr, hr']
  · refine ⟨task_st1 st id rec, task_stF1 st id rec emsg,
      task_recF1 rec emsg, task_rec1 rec, hr, lookup_insertR_self ..,
      rfl, rfl, ?_, lookup_insertR_self .., rfl, rfl, rfl⟩
    intro hcon
    have : emsg = "" := by
      have h2 : some emsg = some "" := by
        calc some emsg = (task_recF1 rec emsg).error_details := rfl
          _ = some "" := hcon
      exact Option.some.inj h2
    exact hmsg this

/-- Witness for stage1_failure_final_state at a concrete registry and a
concrete non-empty stage-1 error message. -/
theorem stage1_failure_final_state_witness :
    ∃ st1 stF recF r1,
      generate_video_task_run [("w", recFreshW)] "w"
        (Except.error "API call timed out") (Except.ok "irrelevant") =
        ([st1, stF], some stF) ∧
      lookup stF "w" = some recF ∧
      recF.status = VideoStatus.failed ∧
      recF.error_details = some "API call timed out" ∧
      recF.error_details ≠ some "" ∧
      lookup st1 "w" = some r1 ∧ r1.progress = 25 ∧
      recF.progress = r1.progress ∧
      recF.video_path = recFreshW.video_path :=
  (stage1_failure_final_state [("w", recFreshW)] "w" "API call timed out"
    recFreshW rfl (by decide) (Except.ok "irrelevant")
    (Except.error "other")).2

/-- C5: when both stages succeed, the driver commits exactly four writes
and ends with the record at status COMPLETED, progress 100, video_path
set to the rendered output and error_details still empty; the statuses
the four committed writes expose for the record are GENERATING_SCRIPT,
GENERATING_SCRIPT, RENDERING_VIDEO, COMPLETED, in that order: the run
passes through stage 1 then stage 2 before COMPLETED. -/
theorem both_stages_success_final_state (st : Registry)
    (id script path : String) (rec : VideoInfo)
    (hpres : lookup st id = some rec)
    (herr : rec.error_details = none) :
    ∃ ws stF recF,
      generate_video_task_run st id (Except.ok script)
        (Except.ok path) = (ws, some stF) ∧
      lookup stF id = some recF ∧
      recF.status = VideoStatus.completed ∧
      recF.progress = 100 ∧
      recF.video_path = some path ∧
      recF.error_details = none ∧
      ws.map (fun s => (lookup s id).map (fun r => r.status)) =
        [some VideoStatus.generating_script,
         some VideoStatus.generating_script,
         some VideoStatus.rendering_video,
         some VideoStatus.completed] := by
  have hr := run_success st id script path rec hpres
  refine ⟨_, _, task_rec4 rec script path, hr, lookup_insertR_self ..,
    rfl, rfl, rfl, herr, ?_⟩
  simp only [List.map_cons, List.map_nil, task_st1, task_st2, task_st3,
    task_st4, lookup_insertR_self]
  rfl

/-- Witness for both_stages_success_final_state at a concrete registry. -/
theorem both_stages_success_final_state_witness :
    ∃ ws stF recF,
      generate_video_task_run [("w", recFreshW)] "w"
        (Except.ok "the script") (Except.ok "/videos/w.mp4") =
        (ws, some stF) ∧
      lookup stF "w" = some recF ∧
      recF.status = VideoStatus.completed ∧
      recF.progress = 100 ∧
      recF.video_path = some "/videos/w.mp4" ∧
      recF.error_details = none ∧
      ws.map (fun s => (lookup s "w").map (fun r => r.status)) =
        [some VideoStatus.generating_script,
         some VideoStatus.generating_script,
         some VideoStatus.rendering_video,
         some VideoStatus.completed] :=
  both_stages_success_final_state [("w", recFreshW)] "w" "the script"
    "/videos/w.mp4" recFreshW rfl rfl

/-- C8: over every sequence of registry writes the system itself performs
on one job record, the admission-time creation followed by the writes of
the pipeline driver, for every outcome of the two stages, the record is
present at every observed state and its progress stays in the interval
from 0 to 100, never decreases while the status is non-terminal, and
never changes after the status first becomes terminal. -/
theorem progress_monotone_within_bounds (st0 : Registry)
    (id p : String) (now : Int) (sres rres : Except String String) :
    progress_ok_opt (job_record_trace st0 id p now sres rres) = true := by
  have hc : lookup (create_video st0 id p now).1 id =
      some (create_video st0 id p now).2 := lookup_insertR_self ..
  cases sres with
  | error e =>
    have hr := run_fail1 (create_video st0 id p now).1 id e
      (create_video st0 id p now).2 rres hc
    simp only [create_video] at hr
    simp [job_record_trace, hr, progress_ok_opt, seq_opts, progress_ok,
      progress_ok_from, isTerminal, task_st1, task_stF1,
      lookup_insertR_self, task_rec1, task_recF1, applyUpds, applyUpd,
      u_stage1, u_fail, create_video]
  | ok script =>
    cases rres with
    | error e =>
      have hr := run_fail2 (create_video st0 id p now).1 id script e
        (create_video st0 id p now).2 hc
      simp only [create_video] at hr
      simp [job_record_trace, hr, progress_ok_opt, seq_opts, progress_ok,
        progress_ok_from, isTerminal, task_st1, task_st2, task_st3,
        task_stF2, lookup_insertR_self, task_rec1, task_rec2, task_rec3,
        task_recF2, applyUpds, applyUpd, u_stage1, u_script, u_stage2,
        u_fail, create_video]
    | ok path =>
      have hr := run_success (create_video st0 id p now).1 id script path
        (create_video st0 id p now).2 hc
      simp only [create_video] at hr
      simp [job_record_trace, hr, progress_ok_opt, seq_opts, progress_ok,
        progress_ok_from, isTerminal, task_st1, task_st2, task_st3,
        task_st4, lookup_insertR_self, task_rec1, task_rec2, task_rec3,
        task_rec4, applyUpds, applyUpd, u_stage1, u_script, u_stage2,
        u_done, create_video]

theorem field_get_applyUpd_ne (f : FName) (u : Upd) (a : VideoInfo)
    (h : upd_target u ≠ some f) :
    field_get f (applyUpd a u) = field_get f a := by
  cases u <;> cases f <;> simp_all [applyUpd, upd_target, field_get]

theorem field_get_applyUpds_ne (f : FName) (us : List Upd)
    (h : ∀ u ∈ us, upd_target u ≠ some f) :
    ∀ a : VideoInfo, field_get f (applyUpds a us) = field_get f a := by
  induction us with
  | nil => intro a; rfl
  | cons hd tl ih =>
    intro a
    have hstep : applyUpds a (hd :: tl) = applyUpds (applyUpd a hd) tl :=
      rfl
    rw [hstep, ih (fun u hu => h u (List.mem_cons_of_mem _ hu)),
      field_get_applyUpd_ne f hd a (h hd (List.mem_cons_self _ _))]

theorem field_get_applyUpd_set (f : FName) (u : Upd) (a b : VideoInfo)
    (h : upd_target u = some f) :
    field_get f (applyUpd a u) = field_get f (applyUpd b u) := by
  cases u <;> cases f <;> simp_all [applyUpd, upd_target, field_get]

theorem applyUpds_all_unknown (us : List Upd)
    (h : ∀ u ∈ us, upd_target u = none) :
    ∀ a : VideoInfo, applyUpds a us = a := by
  induction us with
  | nil => intro a; rfl
  | cons hd tl ih =>
    intro a
    have hhd : applyUpd a hd = a := by
      cases hd <;> simp_all [upd_target, applyUpd]
    have hstep : applyUpds a (hd :: tl) = applyUpds (applyUpd a hd) tl :=
      rfl
    rw [hstep, hhd, ih (fun u hu => h u (List.mem_cons_of_mem _ hu))]

theorem field_get_applyUpds_unique (f : FName) (us : List Upd) (u : Upd)
    (hu : u ∈ us) (ht : upd_target u = some f)
    (huniq : ∀ u' ∈ us, upd_target u' = some f → u' = u) :
    ∀ a : VideoInfo, field_get f (applyUpds a us) =
      field_get f (applyUpd a u) := by
  induction us with
  | nil => cases hu
  | cons hd tl ih =>
    intro a
    have hstep : applyUpds a (hd :: tl) = applyUpds (applyUpd a hd) tl :=
      rfl
    by_cases hm : u ∈ tl
    · have hrec := ih hm
        (fun u' h' ht' => huniq u' (List.mem_cons_of_mem _ h') ht')
        (applyUpd a hd)
      rw [hstep, hrec]
      exact field_get_applyUpd_set f u (applyUpd a hd) a ht
    · have heq : hd = u := by
        rcases List.mem_cons.mp hu with h1 | h1
        · exact h1.symm
        · exact absurd h1 hm
      have htl : ∀ u' ∈ tl, upd_target u' ≠ some f := by
        intro u' h' hcon
        have := huniq u' (List.mem_cons_of_mem _ h') hcon
        subst this
        exact hm h'
      rw [hstep, field_get_applyUpds_ne f tl htl (applyUpd a hd), heq]

/-- C9 counterexample: a keyword whose name is an attribute of the
pydantic model without being a field, such as dict or copy, is not
ignored: hasattr succeeds and setattr raises ValueError out of
update_video, on an id that is present.  Moreover the keywords applied
before the raise stay in place (the stored record is mutated in place):
after progress 55, method copy, message x the registry holds the record
with progress 55 and the original message, refuting both that NotFound is
the only error for a present id and that non-field names are ignored
without error. -/
theorem update_method_keyword_raises :
    (update_video [("q1", recQ1)] "q1" [Upd.method "dict"]).2 =
      Except.error
        (PyErr.valueError "VideoInfo object has no field dict") ∧
    (update_video [("q1", recQ1)] "q1"
        [Upd.progress 55, Upd.method "copy", Upd.message "x"]).2 =
      Except.error
        (PyErr.valueError "VideoInfo object has no field copy") ∧
    lookup (update_video [("q1", recQ1)] "q1"
        [Upd.progress 55, Upd.method "copy", Upd.message "x"]).1 "q1" =
      some (applyUpd recQ1 (Upd.progress 55)) := by
  refine ⟨rfl, rfl, ?_⟩
  decide

/-- C9 amended: update raises NotFound exactly when the id is absent
(never for a present id, whatever the map).  For a present id, keywords
are applied in order and three name classes exist.  If no keyword names
an attribute that is not a field, the update succeeds: the updated record
is stored under the id, every other record is unchanged, every field no
keyword names keeps its value, a field named by exactly one keyword takes
that keyword's value, and a map naming no field at all is a no-op.  But
at the first keyword naming a non-field attribute (dict, copy, json and
the like) pydantic setattr raises ValueError out of update, with the
keywords already applied left in place: such names are not ignored and
the update is not atomic under them. -/
theorem update_video_contract (st : Registry) (id : String)
    (us : List Upd) :
    ((update_video st id us).2 =
        Except.error (PyErr.videoNotFound
          ("Video " ++ id ++ " not found")) ↔
      lookup st id = none) ∧
    (∀ rec, lookup st id = some rec →
      (∀ u ∈ us, isMethodUpd u = false) →
      ∃ st' rec', update_video st id us = (st', Except.ok rec') ∧
        lookup st' id = some rec' ∧
        (∀ j, j ≠ id → lookup st' j = lookup st j) ∧
        (∀ f : FName, (∀ u ∈ us, upd_target u ≠ some f) →
          field_get f rec' = field_get f rec) ∧
        (∀ u ∈ us, ∀ f : FName, upd_target u = some f →
          (∀ u' ∈ us, upd_target u' = some f → u' = u) →
          field_get f rec' = field_get f (applyUpd rec u)) ∧
        ((∀ u ∈ us, upd_target u = none) → rec' = rec)) ∧
    (∀ rec pre name post, lookup st id = some rec →
      us = pre ++ Upd.method name :: post →
      (∀ u ∈ pre, isMethodUpd u = false) →
      update_video st id us =
        (insertR st id (applyUpds rec pre),
         Except.error (PyErr.valueError
           ("VideoInfo object has no field " ++ name)))) := by
  refine ⟨?_, ?_, ?_⟩
  · constructor
    · intro he
      cases h : lookup st id with
      | none => rfl
      | some rec =>
        rcases hr : runUpds rec us with ⟨vi', oe⟩
        cases oe with
        | none => simp [update_video, h, hr] at he
        | some e => simp [update_video, h, hr] at he
    · intro h
      simp [update_video, h]
  · intro rec h hm
    refine ⟨_, _, update_video_present st id rec us h hm,
      lookup_insertR_self .., fun j hj => lookup_insertR_ne _ _ _ _ hj,
      fun f hf => field_get_applyUpds_ne f us hf rec,
      fun u hu f ht huniq =>
        field_get_applyUpds_unique f us u hu ht huniq rec,
      fun hall => applyUpds_all_unknown us hall rec⟩
  · intro rec pre name post h hus hpre
    subst hus
    simp [update_video, h, runUpds_first_method pre name post hpre rec]

/-- Witness for update_video_contract at concrete inputs, discharging the
hypotheses of both present-id branches: a method-free map assigning
progress 55 succeeds, keeps the other record and the unnamed message
field, and sets progress; a map hitting method copy after progress 55
raises ValueError with the progress mutation persisted. -/
theorem update_video_contract_witness :
    (∃ st' rec',
      update_video [("q1", recQ1), ("a", recDoneA)] "q1"
        [Upd.progress 55, Upd.unknown "no_such_field"] =
        (st', Except.ok rec') ∧
      lookup st' "a" = lookup [("q1", recQ1), ("a", recDoneA)] "a" ∧
      field_get FName.message rec' = field_get FName.message recQ1 ∧
      field_get FName.progress rec' =
        field_get FName.progress (applyUpd recQ1 (Upd.progress 55))) ∧
    update_video [("q1", recQ1)] "q1"
        [Upd.progress 55, Upd.method "copy"] =
      (insertR [("q1", recQ1)] "q1" (applyUpds recQ1 [Upd.progress 55]),
       Except.error (PyErr.valueError
         "VideoInfo object has no field copy")) := by
  constructor
  · obtain ⟨st', rec', he, -, hframe, hun, huniq, -⟩ :=
      (update_video_contract [("q1", recQ1), ("a", recDoneA)] "q1"
        [Upd.progress 55, Upd.unknown "no_such_field"]).2.1 recQ1 rfl
        (by decide)
    exact ⟨st', rec', he, hframe "a" (by decide),
      hun FName.message (by decide),
      huniq (Upd.progress 55) (by simp) FName.progress rfl (by decide)⟩
  · exact (update_video_contract [("q1", recQ1)] "q1"
      [Upd.progress 55, Upd.method "copy"]).2.2 recQ1
      [Upd.progress 55] "copy" [] rfl rfl (by decide)

end VideoGen
